import Mathlib

/-!
Verification of the deadline-computation core (`core/calendario_service.py`)
of the `sistema_pericias` repository.

Dates are embedded as rata-die day numbers (`Nat`, days since 0000-03-01 in
the proleptic Gregorian calendar, the calendar of Python `datetime.date`),
converted with the standard civil-from-days / days-from-civil algorithms.
Sets of dates (`set[date]` in the source) are embedded extensionally as
characteristic functions `Nat → Bool`; a Python while-loop that inserts every
day of an interval `[a, b]` into a set corresponds to the membership test
`a ≤ d && d ≤ b`.  Strings are embedded as `List Char`; Unicode NFKD accent
folding (`unicodedata`) is modelled exactly for the Latin-1 precomposed
letters that Brazilian locality names use (identity on other characters,
exact on ASCII), plus removal of combining marks.  The two unbounded while
loops of `somar_dias_uteis` receive an explicit fuel parameter; exhausting
fuel is a distinguished error, separate from the `ValueError` the source
raises for a negative day count.
-/

namespace SistemaPericias

/-! ## Proleptic Gregorian calendar (mirrors Python `datetime.date`) -/

/-- Days-from-civil: rata-die day number (days since 0000-03-01) of the date
`(y, m, d)`.  Standard Gregorian-calendar algorithm, `Nat`-valued (valid for
every year `y ≥ 1`). -/
def toRD (y m d : Nat) : Nat :=
  let ya := if m ≤ 2 then y - 1 else y
  let era := ya / 400
  let yoe := ya % 400
  let mp := (m + 9) % 12
  let doy := (153 * mp + 2) / 5 + d - 1
  let doe := yoe * 365 + yoe / 4 - yoe / 100 + doy
  era * 146097 + doe

/-- Civil-from-days: `(year, month, day)` of a rata-die day number. -/
def rdToYMD (z : Nat) : Nat × Nat × Nat :=
  let era := z / 146097
  let doe := z % 146097
  let yoe := (doe - doe / 1460 + doe / 36524 - doe / 146096) / 365
  let y := yoe + era * 400
  let doy := doe - (365 * yoe + yoe / 4 - yoe / 100)
  let mp := (5 * doy + 2) / 153
  let d := doy - (153 * mp + 2) / 5 + 1
  let m := if mp < 10 then mp + 3 else mp - 9
  (if m ≤ 2 then y + 1 else y, m, d)

/-- Year component (Python `date.year`) of a rata-die day number. -/
def yearOf (z : Nat) : Nat := (rdToYMD z).1

/-- Month component (Python `date.month`) of a rata-die day number. -/
def monthOf (z : Nat) : Nat := (rdToYMD z).2.1

/-- Python `date.weekday()`: Monday = 0 … Sunday = 6. -/
def weekday (z : Nat) : Nat := (z + 2) % 7

/-! ## Strings (embedded as `List Char`) -/

/-- Characters of a string literal. -/
def cs (s : String) : List Char := s.toList

/-- Python `str.strip()` from the left. -/
def trimL (l : List Char) : List Char := l.dropWhile Char.isWhitespace

/-- Python `str.strip()`. -/
def trimChars (l : List Char) : List Char := (trimL (trimL l).reverse).reverse

/-- Python `s.startswith(p)`, as `startsWithB s p`. -/
def startsWithB : List Char → List Char → Bool
  | _, [] => true
  | [], _ :: _ => false
  | c :: s, p :: ps => c == p && startsWithB s ps

/-- Python `needle in hay` (substring containment), as `hasSubB hay needle`. -/
def hasSubB : List Char → List Char → Bool
  | [], needle => needle.isEmpty
  | c :: t, needle => startsWithB (c :: t) needle || hasSubB t needle

/-- Python `s.endswith(p)`. -/
def endsWithB (s p : List Char) : Bool := startsWithB s.reverse p.reverse

/-- Helper for `splitWS`: accumulates the current word reversed. -/
def splitWSAux : List Char → List Char → List (List Char)
  | [], acc => if acc.isEmpty then [] else [acc.reverse]
  | c :: rest, acc =>
    if c.isWhitespace then
      if acc.isEmpty then splitWSAux rest [] else acc.reverse :: splitWSAux rest []
    else splitWSAux rest (c :: acc)

/-- Python `str.split()` with no argument: words separated by whitespace runs,
no empty words. -/
def splitWS (l : List Char) : List (List Char) := splitWSAux l []

/-- Python `" ".join(words)`. -/
def joinSpace : List (List Char) → List Char
  | [] => []
  | [w] => w
  | w :: rest => w ++ ' ' :: joinSpace rest

/-- NFKD accent folding for the precomposed Latin-1 letters used by Brazilian
locality/scope labels (exact on ASCII, identity elsewhere): the base letter of
the NFKD decomposition. -/
def accentFold (c : Char) : Char :=
  if c ∈ cs "áàâãä" then 'a'
  else if c ∈ cs "éèêë" then 'e'
  else if c ∈ cs "íìîï" then 'i'
  else if c ∈ cs "óòôõö" then 'o'
  else if c ∈ cs "úùûü" then 'u'
  else if c == 'ç' then 'c'
  else if c == 'ñ' then 'n'
  else if c ∈ cs "ÁÀÂÃÄ" then 'A'
  else if c ∈ cs "ÉÈÊË" then 'E'
  else if c ∈ cs "ÍÌÎÏ" then 'I'
  else if c ∈ cs "ÓÒÔÕÖ" then 'O'
  else if c ∈ cs "ÚÙÛÜ" then 'U'
  else if c == 'Ç' then 'C'
  else if c == 'Ñ' then 'N'
  else c

/-- A combining diacritical mark (dropped by `_strip_accents`). -/
def isCombining (c : Char) : Bool := 0x300 ≤ c.toNat && c.toNat ≤ 0x36F

/-- Embeds `CalendarioService._strip_accents`: NFKD-normalize and drop combining
marks (modelled by per-character folding plus combining-mark removal). -/
def strip_accents (l : List Char) : List Char :=
  (l.map accentFold).filter (fun c => !isCombining c)

/-- Python `str.lower()` (ASCII; `_norm` lower-cases after accent removal). -/
def lowerL (l : List Char) : List Char := l.map Char.toLower

/-- Python `str.upper()` (ASCII). -/
def upperL (l : List Char) : List Char := l.map Char.toUpper

/-- Characters strictly before the first occurrence of `ch`
(Python `v.split(ch, 1)[0]` when `ch in v`). -/
def takeBeforeChar (l : List Char) (ch : Char) : List Char :=
  l.takeWhile (fun c => c != ch)

/-- Characters strictly before the first occurrence of the substring `sep`
(Python `v.split(sep, 1)[0]` when `sep in v`). -/
def takeBeforeSub : List Char → List Char → List Char
  | [], _ => []
  | c :: t, sep => if startsWithB (c :: t) sep then [] else c :: takeBeforeSub t sep

/-! ## Normalization (`CalendarioService._norm`, `_norm_escopo`) -/

/-- The prefixes removed by `_norm`, in source order. -/
def normPrefixes : List (List Char) :=
  [cs "comarca de ", cs "foro de ", cs "foro da ", cs "foro do ", cs "municipio de "]

/-- Embeds `CalendarioService._norm`: canonicalize a locality label
(`None`/blank ↦ `none`). -/
def norm : Option (List Char) → Option (List Char)
  | none => none
  | some s =>
    let v := trimChars s
    if v.isEmpty then none
    else
      let v := lowerL (strip_accents v)
      let v := joinSpace (splitWS v)
      let v := normPrefixes.foldl
        (fun v p => if startsWithB v p then trimChars (v.drop p.length) else v) v
      let v := if v.any (· == '/') then trimChars (takeBeforeChar v '/') else v
      let v := if hasSubB v (cs " - ") then trimChars (takeBeforeSub v (cs " - ")) else v
      let v := if endsWithB v (cs " sp") then trimChars (v.take (v.length - 3)) else v
      if v.isEmpty then none else some v

/-- Embeds `CalendarioService._ESCOPO_ALIASES`. -/
def ESCOPO_ALIASES : List (List Char × List Char) :=
  [ (cs "ESTADUAL", cs "ESTADUAL_SP")
  , (cs "SP_ESTADUAL", cs "ESTADUAL_SP")
  , (cs "ESTADUAL-SP", cs "ESTADUAL_SP")
  , (cs "ESTADUAL SP", cs "ESTADUAL_SP")
  , (cs "TJSP", cs "TJSP_GERAL")
  , (cs "RECESSO_TJSP", cs "TJSP_GERAL")
  , (cs "RECESSO TJSP", cs "TJSP_GERAL")
  , (cs "CPC220", cs "TJSP_GERAL")
  , (cs "CPC 220", cs "TJSP_GERAL")
  , (cs "CPC_220", cs "TJSP_GERAL")
  , (cs "CPC-220", cs "TJSP_GERAL")
  , (cs "ART_220", cs "TJSP_GERAL")
  , (cs "ART 220", cs "TJSP_GERAL")
  , (cs "ARTIGO_220", cs "TJSP_GERAL")
  , (cs "ARTIGO 220", cs "TJSP_GERAL") ]

/-- Embeds `CalendarioService._norm_escopo`: trim, upper-case, fold aliases
(unknown labels pass through unchanged). -/
def norm_escopo (s : Option (List Char)) : List Char :=
  let esc := upperL (trimChars (s.getD []))
  (ESCOPO_ALIASES.lookup esc).getD esc

/-! ## Tolerant locality match (`CalendarioService._match_local`) -/

/-- Embeds `CalendarioService._match_local`: tolerant match between normalized
locality labels.  The source's early `return True` chain is rendered as a
disjunction. -/
def match_local : Option (List Char) → Option (List Char) → Bool
  | some loc, some alvo =>
    if loc.isEmpty || alvo.isEmpty then false
    else
      loc == alvo
        || (startsWithB loc alvo || startsWithB alvo loc)
        || (hasSubB loc alvo || hasSubB alvo loc)
        || (splitWS loc).any (fun t => (splitWS alvo).contains t)
  | _, _ => false

/-! ## Data model -/

/-- Embeds `_ContextoLocal`: normalized `(comarca, municipio)` pair. -/
structure ContextoLocal where
  comarca : Option (List Char)
  municipio : Option (List Char)

/-- Embeds `RegrasCalendario`: the five scope flags (all default `True`). -/
structure RegrasCalendario where
  incluir_nacional : Bool := true
  incluir_estadual_sp : Bool := true
  incluir_tjsp_geral : Bool := true
  incluir_tjsp_comarca : Bool := true
  incluir_municipal : Bool := true

/-- A `Feriado` row of the Holiday Store: stored timestamp at day granularity
(`data`, as a rata-die day), raw scope label and raw locality label. -/
structure Feriado where
  data : Nat
  escopo : Option (List Char) := none
  «local» : Option (List Char) := none

/-- The Holiday Store, embedded as the list of its rows. -/
abbrev Store := List Feriado

/-- Embeds `CalendarioService._MARGEM_INICIAL_DIAS`. -/
def MARGEM_INICIAL_DIAS : Nat := 120

/-- Embeds `CalendarioService._MARGEM_CRESCIMENTO_DIAS`. -/
def MARGEM_CRESCIMENTO_DIAS : Nat := 120

/-- Embeds `CalendarioService.AUTO_MUNICIPIO_BY_COMARCA`. -/
def AUTO_MUNICIPIO_BY_COMARCA : List (List Char × List Char) :=
  [(cs "ilhabela", cs "ilhabela")]

/-! ## CPC art. 220 recess (`_dias_recesso_cpc220`) -/

/-- Embeds `CalendarioService._dias_recesso_cpc220`, as the characteristic function
of the returned `set[date]`: for each year in
`{inicio.year, fim.year, inicio.year - 1, fim.year + 1}` the inclusive range
Dec 20 of `y` through Jan 20 of `y + 1`, clipped to `[inicio, fim]`
(the source's while loop inserts exactly the days `d` with
`max inicio start ≤ d ≤ min fim stop`). -/
def dias_recesso_cpc220 (inicio fim : Nat) : Nat → Bool := fun d =>
  if fim < inicio then false
  else
    let years := [yearOf inicio, yearOf fim, yearOf inicio - 1, yearOf fim + 1].dedup
    years.any (fun y =>
      let start := toRD y 12 20
      let stop := toRD (y + 1) 1 20
      decide (max inicio start ≤ d) && decide (d ≤ min fim stop))

/-! ## Holiday aggregation -/

/-- Embeds `CalendarioService._feriados_periodo`: rows with
`inicio ≤ data < fim + 1` (day granularity; ordering irrelevant for the
resulting set). -/
def feriados_periodo (store : Store) (inicio fim : Nat) : List Feriado :=
  store.filter (fun f => decide (inicio ≤ f.data) && decide (f.data < fim + 1))

/-- Embeds `CalendarioService._resolve_context`. -/
def resolve_context (comarca municipio : Option (List Char))
    (aplicar_local : Bool) : ContextoLocal :=
  if !aplicar_local then ⟨none, none⟩
  else
    let comarca_norm := norm comarca
    let municipio_norm := norm municipio
    let municipio_norm :=
      match comarca_norm, municipio_norm with
      | some cn, none => some ((AUTO_MUNICIPIO_BY_COMARCA.lookup cn).getD cn)
      | _, _ => municipio_norm
    ⟨comarca_norm, municipio_norm⟩

/-- Embeds `CalendarioService._eh_aplicavel`. -/
def eh_aplicavel (f : Feriado) (ctx : ContextoLocal)
    (regras : RegrasCalendario) : Bool :=
  let esc := norm_escopo f.escopo
  let loc := norm f.«local»
  if esc = cs "NACIONAL" then regras.incluir_nacional
  else if esc = cs "ESTADUAL_SP" then regras.incluir_estadual_sp
  else if esc = cs "TJSP_GERAL" then regras.incluir_tjsp_geral
  else if esc = cs "MUNICIPAL" then
    if !regras.incluir_municipal then false
    else match_local loc ctx.municipio || match_local loc ctx.comarca
  else if esc = cs "TJSP_COMARCA" then
    if !regras.incluir_tjsp_comarca then false
    else match_local loc ctx.comarca
  else false

/-- Embeds `CalendarioService.feriados_aplicaveis`, as the characteristic function
of the returned `set[date]`: applicable Holiday-Store rows in the interval,
plus the automatic CPC 220 recess when `incluir_tjsp_geral` is on.  The
`lru_cache` layer is transparent for a pure function and is not modelled. -/
def feriados_aplicaveis (store : Store) (inicio fim : Nat)
    (comarca municipio : Option (List Char)) (aplicar_local : Bool)
    (regras : RegrasCalendario) : Nat → Bool :=
  let ctx := resolve_context comarca municipio aplicar_local
  fun d =>
    (feriados_periodo store inicio fim).any
      (fun f => eh_aplicavel f ctx regras && f.data == d)
    || (regras.incluir_tjsp_geral && dias_recesso_cpc220 inicio fim d)

/-! ## Business days -/

/-- Embeds `CalendarioService.eh_dia_util`. -/
def eh_dia_util (d : Nat) (feriados : Nat → Bool) : Bool :=
  decide (weekday d < 5) && !feriados d

/-- Errors: `ValueError("dias deve ser >= 0")` from the source, plus fuel
exhaustion of the embedded while loops. -/
inductive CalErr where
  | invalidArgument : CalErr
  | fuelOut : CalErr
deriving DecidableEq

/-- The `while not eh_dia_util: atual += 1` loop of `proximo_dia_util`
(fuelled). -/
def proximo_loop : Nat → Nat → (Nat → Bool) → Option Nat
  | 0, _, _ => none
  | fuel + 1, atual, fer =>
    if eh_dia_util atual fer then some atual else proximo_loop fuel (atual + 1) fer

/-- Embeds `CalendarioService.proximo_dia_util`: first business day `≥ d`, holidays
fetched once for the fixed 60-day lookahead window. -/
def proximo_dia_util (fuel : Nat) (store : Store) (d : Nat)
    (comarca municipio : Option (List Char)) (aplicar_local : Bool)
    (regras : RegrasCalendario) : Option Nat :=
  let fer := feriados_aplicaveis store d (d + 60) comarca municipio aplicar_local regras
  proximo_loop fuel d fer

/-- Mutable state of the `somar_dias_uteis` loops. -/
structure LoopState where
  atual : Nat
  fim_janela : Nat
  feriados : Nat → Bool

/-- The window-growth block that `somar_dias_uteis` repeats at the head of
both of its loops: when the cursor has passed the window end, extend the
window by `margem_crescimento` days and union in the newly covered holidays. -/
def grow_janela (store : Store) (comarca municipio : Option (List Char))
    (aplicar_local : Bool) (regras : RegrasCalendario)
    (margem_crescimento : Nat) (st : LoopState) : LoopState :=
  if st.fim_janela < st.atual then
    let novo_fim := st.fim_janela + margem_crescimento
    let extra := feriados_aplicaveis store (st.fim_janela + 1) novo_fim
      comarca municipio aplicar_local regras
    ⟨st.atual, novo_fim, fun d => st.feriados d || extra d⟩
  else st

/-- The counting loop of `somar_dias_uteis` (`while contador < dias`),
fuelled; returns the state at the `break`/exit. -/
def contagem_loop (store : Store) (comarca municipio : Option (List Char))
    (aplicar_local : Bool) (regras : RegrasCalendario)
    (margem_crescimento : Nat) (dias : Nat) :
    Nat → Nat → LoopState → Option LoopState
  | 0, _, _ => none
  | fuel + 1, contador, st =>
    if contador < dias then
      let st := grow_janela store comarca municipio aplicar_local regras
        margem_crescimento st
      if eh_dia_util st.atual st.feriados then
        if contador + 1 = dias then some st
        else contagem_loop store comarca municipio aplicar_local regras
          margem_crescimento dias fuel (contador + 1)
          ⟨st.atual + 1, st.fim_janela, st.feriados⟩
      else contagem_loop store comarca municipio aplicar_local regras
        margem_crescimento dias fuel contador
        ⟨st.atual + 1, st.fim_janela, st.feriados⟩
    else some st

/-- The trailing "garante retorno em dia útil" loop of `somar_dias_uteis`
(`while True`), fuelled. -/
def garante_loop (store : Store) (comarca municipio : Option (List Char))
    (aplicar_local : Bool) (regras : RegrasCalendario)
    (margem_crescimento : Nat) : Nat → LoopState → Option Nat
  | 0, _ => none
  | fuel + 1, st =>
    let st := grow_janela store comarca municipio aplicar_local regras
      margem_crescimento st
    if eh_dia_util st.atual st.feriados then some st.atual
    else garante_loop store comarca municipio aplicar_local regras
      margem_crescimento fuel ⟨st.atual + 1, st.fim_janela, st.feriados⟩

/-- Embeds `CalendarioService.somar_dias_uteis`, with the two window constants as
explicit parameters (the source fixes them to the class constants; see
`somar_dias_uteis`). -/
def somar_dias_uteis_m (margem_inicial margem_crescimento fuel : Nat)
    (store : Store) (data_base : Nat) (dias : Int)
    (comarca municipio : Option (List Char)) (excluir_dia_inicial : Bool)
    (aplicar_local : Bool) (regras : RegrasCalendario) : Except CalErr Nat :=
  if dias < 0 then .error .invalidArgument
  else
    let diasN := dias.toNat
    let atual := if excluir_dia_inicial then data_base + 1 else data_base
    let fim_janela := atual + diasN + margem_inicial
    let feriados := feriados_aplicaveis store atual fim_janela comarca municipio
      aplicar_local regras
    match contagem_loop store comarca municipio aplicar_local regras
        margem_crescimento diasN fuel 0 ⟨atual, fim_janela, feriados⟩ with
    | none => .error .fuelOut
    | some st =>
      match garante_loop store comarca municipio aplicar_local regras
          margem_crescimento fuel st with
      | none => .error .fuelOut
      | some a => .ok a

/-- Embeds `CalendarioService.somar_dias_uteis` with the source's window constants. -/
def somar_dias_uteis (fuel : Nat) (store : Store) (data_base : Nat)
    (dias : Int) (comarca municipio : Option (List Char))
    (excluir_dia_inicial : Bool) (aplicar_local : Bool)
    (regras : RegrasCalendario) : Except CalErr Nat :=
  somar_dias_uteis_m MARGEM_INICIAL_DIAS MARGEM_CRESCIMENTO_DIAS fuel store
    data_base dias comarca municipio excluir_dia_inicial aplicar_local regras

/-- Embeds `CalendarioService.prazo_dje_tjsp`: publication = first business day
strictly after availability; deadline = `dias_uteis` business days after
publication, excluding the publication day. -/
def prazo_dje_tjsp (fuel : Nat) (store : Store) (disponibilizacao : Nat)
    (dias_uteis : Int) (comarca municipio : Option (List Char))
    (aplicar_local : Bool) (regras : RegrasCalendario) : Except CalErr Nat :=
  let publicacao_base := disponibilizacao + 1
  match proximo_dia_util fuel store publicacao_base comarca municipio
      aplicar_local regras with
  | none => .error .fuelOut
  | some publicacao =>
      somar_dias_uteis fuel store publicacao dias_uteis comarca municipio
        true aplicar_local regras

/-- Spec-side characterization of applicability when only the three fixed
scopes can match, used to state what an empty locality context forces: a row
counts exactly when its resolved scope is NACIONAL, ESTADUAL_SP or
TJSP_GERAL and the corresponding rule flag is on. -/
def fixed_scope_aplicavel (f : Feriado) (regras : RegrasCalendario) : Bool :=
  let esc := norm_escopo f.escopo
  if esc = cs "NACIONAL" then regras.incluir_nacional
  else if esc = cs "ESTADUAL_SP" then regras.incluir_estadual_sp
  else if esc = cs "TJSP_GERAL" then regras.incluir_tjsp_geral
  else false

/-! ## Supporting lemmas -/

/-- Boolean prefix test agrees with `List.IsPrefix`. -/
theorem startsWithB_iff (s p : List Char) : startsWithB s p = true ↔ p <+: s := by
  induction s generalizing p with
  | nil => cases p <;> simp [startsWithB]
  | cons c t ih =>
    cases p with
    | nil => simp [startsWithB]
    | cons d q =>
      show (c == d && startsWithB t q) = true ↔ (d :: q) <+: (c :: t)
      rw [Bool.and_eq_true, beq_iff_eq, ih, List.cons_prefix_cons]
      constructor
      · rintro ⟨h1, h2⟩; exact ⟨h1.symm, h2⟩
      · rintro ⟨h1, h2⟩; exact ⟨h1.symm, h2⟩

/-- Boolean substring test agrees with `List.IsInfix`. -/
theorem hasSubB_iff (hay needle : List Char) :
    hasSubB hay needle = true ↔ needle <:+: hay := by
  induction hay with
  | nil => simp [hasSubB, List.infix_nil, List.isEmpty_iff]
  | cons c t ih =>
    show (startsWithB (c :: t) needle || hasSubB t needle) = true ↔ _
    rw [Bool.or_eq_true, startsWithB_iff, ih, List.infix_cons_iff]

/-- Tolerant matching against an absent target is always false. -/
theorem match_local_none_right (l : Option (List Char)) :
    match_local l none = false := by
  cases l <;> rfl

/-- On two non-empty strings the empty-guard of `match_local` is passed and
the match is the disjunction of the four tolerant tests. -/
theorem match_local_some_some (l a : List Char) (hl : l ≠ []) (ha : a ≠ []) :
    match_local (some l) (some a) =
      (l == a || (startsWithB l a || startsWithB a l)
        || (hasSubB l a || hasSubB a l)
        || (splitWS l).any (fun t => (splitWS a).contains t)) := by
  cases l with
  | nil => exact absurd rfl hl
  | cons c t =>
    cases a with
    | nil => exact absurd rfl ha
    | cons d q => rfl

set_option maxRecDepth 4000 in
/-- With an empty locality context, row applicability reduces to the
fixed-scope test. -/
theorem eh_aplicavel_empty_ctx (f : Feriado) (regras : RegrasCalendario) :
    eh_aplicavel f ⟨none, none⟩ regras = fixed_scope_aplicavel f regras := by
  simp only [eh_aplicavel, fixed_scope_aplicavel, match_local_none_right,
    Bool.or_self]
  split
  · rfl
  split
  · rfl
  split
  · rfl
  split
  · cases regras.incluir_municipal <;> rfl
  split
  · cases regras.incluir_tjsp_comarca <;> rfl
  · rfl

/-! ## Claims -/

/-- C1: the Recess Generator is claimed to include every in-interval day of
every window Dec 20 `Y` – Jan 20 `Y+1` for every year touching the interval,
even when the interval spans more than two calendar years.  The code only
considers the years of the two endpoints (±1), so on the three-year interval
2020-06-01 – 2022-06-01 the interior window Dec 20 2021 – Jan 20 2022 is
dropped: 2021-12-25 lies in the interval and in that window, yet is not in
the returned set. -/
theorem C1_recesso_ano_interior_omitido :
    dias_recesso_cpc220 (toRD 2020 6 1) (toRD 2022 6 1) (toRD 2021 12 25) = false
    ∧ toRD 2020 6 1 ≤ toRD 2022 6 1
    ∧ toRD 2020 6 1 ≤ toRD 2021 12 25 ∧ toRD 2021 12 25 ≤ toRD 2022 6 1
    ∧ toRD 2021 12 20 ≤ toRD 2021 12 25 ∧ toRD 2021 12 25 ≤ toRD 2022 1 20 :=
  ⟨rfl, by decide, by decide, by decide, by decide, by decide⟩

/-- C2 counterexample: for availability 2025-12-10, 10 business days and
court-general recess on (empty Holiday Store), the deadline returned by
`prazo_dje_tjsp` is 2026-01-26, which falls in January — not in February as
the claim states. -/
theorem C2_contraexemplo_prazo_fevereiro :
    prazo_dje_tjsp 2000 [] (toRD 2025 12 10) 10 none none true {}
      = .ok (toRD 2026 1 26)
    ∧ monthOf (toRD 2026 1 26) = 1 :=
  ⟨rfl, by decide⟩

/-- C2 amended: availability 2025-12-10, 10 business days, court-general
recess on, empty Holiday Store: publication is 2025-12-11; every day of the
recess Dec 20 2025 – Jan 20 2026 (32 days) is in the holiday set used by the
counting window, so all recess days are skipped; the deadline is 2026-01-26,
in late January. -/
theorem C2_prazo_dezembro_corrigido :
    proximo_dia_util 2000 [] (toRD 2025 12 10 + 1) none none true {}
      = some (toRD 2025 12 11)
    ∧ (List.range 32).all (fun i =>
        feriados_aplicaveis [] (toRD 2025 12 12) (toRD 2025 12 12 + 10 + 120)
          none none true {} (toRD 2025 12 20 + i)) = true
    ∧ prazo_dje_tjsp 2000 [] (toRD 2025 12 10) 10 none none true {}
      = .ok (toRD 2026 1 26)
    ∧ monthOf (toRD 2026 1 26) = 1 :=
  ⟨rfl, by decide, rfl, by decide⟩

/-- C3: availability Friday 2026-01-30, 15 business days, local rules off,
court-general recess on, empty Holiday Store: publication is Monday
2026-02-02 (first business day strictly after availability + 1 day) and the
deadline is 2026-02-23. -/
theorem C3_cenario_janeiro_2026 :
    weekday (toRD 2026 1 30) = 4
    ∧ proximo_dia_util 2000 [] (toRD 2026 1 30 + 1) none none false {}
      = some (toRD 2026 2 2)
    ∧ weekday (toRD 2026 2 2) = 0
    ∧ prazo_dje_tjsp 2000 [] (toRD 2026 1 30) 15 none none false {}
      = .ok (toRD 2026 2 23) :=
  ⟨by decide, rfl, by decide, rfl⟩

set_option maxRecDepth 200000 in
/-- C5: the lookahead-window constants are claimed to never change the
result of `somar_dias_uteis`.  They do: for base 2020-12-30 and 250 business
days over an empty Holiday Store, initial margin 120 yields 2022-01-05 while
initial margin 0 (same growth increment 120) yields 2022-02-08, because the
large initial window spans three calendar years and the recess generator
drops the interior window Dec 20 2021 – Jan 20 2022. -/
theorem C5_margem_altera_resultado :
    somar_dias_uteis_m 120 120 2000 [] (toRD 2020 12 30) 250 none none
      true true {} = .ok (toRD 2022 1 5)
    ∧ somar_dias_uteis_m 0 120 2000 [] (toRD 2020 12 30) 250 none none
      true true {} = .ok (toRD 2022 2 8)
    ∧ toRD 2022 1 5 ≠ toRD 2022 2 8 :=
  ⟨rfl, rfl, by decide⟩

set_option maxRecDepth 200000 in
/-- C6: re-snapping the result of an addition is claimed to be a no-op.  It
is not: with an empty Holiday Store, `somar_dias_uteis` over 250 business
days from base 2020-12-30 returns 2022-01-05, a day inside the Dec 20 2021 –
Jan 20 2022 recess (dropped from the counting window's holiday set by the
recess generator's endpoint-years bug); re-applying the addition with count
0 and the start day included snaps it forward to 2022-01-21. -/
theorem C6_resultado_nao_util_apos_soma :
    somar_dias_uteis 2000 [] (toRD 2020 12 30) 250 none none true true {}
      = .ok (toRD 2022 1 5)
    ∧ somar_dias_uteis 2000 [] (toRD 2022 1 5) 0 none none false true {}
      = .ok (toRD 2022 1 21)
    ∧ toRD 2022 1 21 ≠ toRD 2022 1 5
    ∧ dias_recesso_cpc220 (toRD 2022 1 5) (toRD 2022 1 5 + 120)
        (toRD 2022 1 5) = true :=
  ⟨rfl, rfl, by decide, rfl⟩

set_option maxRecDepth 4000 in
/-- C4: for every Holiday row, locality context and rule set, `eh_aplicavel`
includes a MUNICIPAL row iff the municipal flag is set and its locality
matches the context's municipality or its comarca; includes a TJSP_COMARCA
(COURT_LOCAL) row iff the court-local flag is set and its locality matches
the comarca; and never includes a row whose resolved scope is none of the
five known scopes. -/
theorem C4_eh_aplicavel_casos (f : Feriado) (ctx : ContextoLocal)
    (regras : RegrasCalendario) :
    (norm_escopo f.escopo = cs "MUNICIPAL" →
      eh_aplicavel f ctx regras =
        (regras.incluir_municipal &&
          (match_local (norm f.«local») ctx.municipio
            || match_local (norm f.«local») ctx.comarca)))
    ∧ (norm_escopo f.escopo = cs "TJSP_COMARCA" →
      eh_aplicavel f ctx regras =
        (regras.incluir_tjsp_comarca && match_local (norm f.«local») ctx.comarca))
    ∧ (norm_escopo f.escopo ∉
        [cs "NACIONAL", cs "ESTADUAL_SP", cs "TJSP_GERAL",
          cs "MUNICIPAL", cs "TJSP_COMARCA"] →
      eh_aplicavel f ctx regras = false) := by
  refine ⟨?_, ?_, ?_⟩ <;> intro h
  · simp only [eh_aplicavel]
    rw [h, if_neg (by decide), if_neg (by decide), if_neg (by decide), if_pos rfl]
    cases regras.incluir_municipal <;> rfl
  · simp only [eh_aplicavel]
    rw [h, if_neg (by decide), if_neg (by decide), if_neg (by decide),
      if_neg (by decide), if_pos rfl]
    cases regras.incluir_tjsp_comarca <;> rfl
  · simp only [List.mem_cons] at h
    push_neg at h
    obtain ⟨h1, h2, h3, h4, h5, -⟩ := h
    simp only [eh_aplicavel]
    rw [if_neg h1, if_neg h2, if_neg h3, if_neg h4, if_neg h5]

set_option maxRecDepth 4000 in
/-- Witness for C4: a MUNICIPAL row for Ilhabela against an Ilhabela context
(its applicability equals the flag-and-match expression), and a row with an
unknown scope label (never applicable). -/
theorem C4_eh_aplicavel_casos_witness :
    eh_aplicavel ⟨0, some (cs "MUNICIPAL"), some (cs "Foro de Ilhabela")⟩
        ⟨some (cs "ilhabela"), some (cs "ilhabela")⟩ {} =
      (true && (match_local (norm (some (cs "Foro de Ilhabela"))) (some (cs "ilhabela"))
        || match_local (norm (some (cs "Foro de Ilhabela"))) (some (cs "ilhabela"))))
    ∧ eh_aplicavel ⟨0, some (cs "PONTO_FACULTATIVO"), some (cs "Foro de Ilhabela")⟩
        ⟨some (cs "ilhabela"), some (cs "ilhabela")⟩ {} = false :=
  ⟨(C4_eh_aplicavel_casos ⟨0, some (cs "MUNICIPAL"), some (cs "Foro de Ilhabela")⟩
      ⟨some (cs "ilhabela"), some (cs "ilhabela")⟩ {}).1 (by decide),
   (C4_eh_aplicavel_casos ⟨0, some (cs "PONTO_FACULTATIVO"), some (cs "Foro de Ilhabela")⟩
      ⟨some (cs "ilhabela"), some (cs "ilhabela")⟩ {}).2.2 (by decide)⟩

set_option maxRecDepth 4000 in
/-- C7: the Locality Matcher returns false when either side is empty, and on
two non-empty normalized strings returns true exactly when they are equal,
one is a prefix of the other, one is a substring (infix) of the other, or
their whitespace-token sets intersect; in particular the holiday locality
"Foro de Ilhabela" matches the target comarca "Ilhabela/SP" after
normalization. -/
theorem C7_match_local_caracterizacao :
    (∀ a : Option (List Char), match_local none a = false)
    ∧ (∀ l : Option (List Char), match_local l none = false)
    ∧ (∀ a : List Char, match_local (some []) (some a) = false)
    ∧ (∀ l : List Char, match_local (some l) (some []) = false)
    ∧ (∀ l a : List Char,
        (match_local (some l) (some a) = true ↔
          l ≠ [] ∧ a ≠ [] ∧
            (l = a ∨ a <+: l ∨ l <+: a ∨ a <:+: l ∨ l <:+: a
              ∨ ∃ t, t ∈ splitWS l ∧ t ∈ splitWS a)))
    ∧ match_local (norm (some (cs "Foro de Ilhabela")))
        (norm (some (cs "Ilhabela/SP"))) = true := by
  refine ⟨fun a => by cases a <;> rfl, fun l => by cases l <;> rfl,
    fun a => rfl, fun l => by simp [match_local], ?_, by decide⟩
  intro l a
  rcases eq_or_ne l [] with rfl | hl
  · simp [match_local]
  rcases eq_or_ne a [] with rfl | ha
  · simp [match_local]
  rw [match_local_some_some l a hl ha]
  simp only [Bool.or_eq_true, beq_iff_eq, startsWithB_iff, hasSubB_iff,
    List.any_eq_true, List.elem_eq_mem, decide_eq_true_eq]
  constructor
  · intro h
    exact ⟨hl, ha, by tauto⟩
  · rintro ⟨-, -, h⟩
    tauto

/-- C8: `somar_dias_uteis` fails with the invalid-argument error exactly for
negative day counts: it returns the `ValueError` embedding for every
`dias < 0`, and never returns it for `dias ≥ 0` (regardless of fuel, store,
context or rules). -/
theorem C8_somar_dias_negativos (fuel : Nat) (store : Store) (base : Nat)
    (dias : Int) (comarca municipio : Option (List Char)) (excl apl : Bool)
    (regras : RegrasCalendario) :
    (dias < 0 →
      somar_dias_uteis fuel store base dias comarca municipio excl apl regras
        = .error .invalidArgument)
    ∧ (0 ≤ dias →
      somar_dias_uteis fuel store base dias comarca municipio excl apl regras
        ≠ .error .invalidArgument) := by
  constructor
  · intro h
    simp only [somar_dias_uteis, somar_dias_uteis_m, if_pos h]
  · intro h
    have hn : ¬ dias < 0 := by omega
    simp only [somar_dias_uteis, somar_dias_uteis_m, if_neg hn]
    split
    · simp
    · split
      · simp
      · simp

/-- Witness for C8: count -1 raises the invalid-argument error; count 0 does
not. -/
theorem C8_somar_dias_negativos_witness :
    somar_dias_uteis 5 [] 0 (-1) none none true true {} = .error .invalidArgument
    ∧ somar_dias_uteis 5 [] 0 0 none none true true {} ≠ .error .invalidArgument :=
  ⟨(C8_somar_dias_negativos 5 [] 0 (-1) none none true true {}).1 (by decide),
   (C8_somar_dias_negativos 5 [] 0 0 none none true true {}).2 (by decide)⟩

/-- C9: a date fails `eh_dia_util` exactly when its weekday is Saturday (5)
or Sunday (6), or it belongs to the holiday set; with the empty holiday set,
it fails exactly on Saturdays and Sundays. -/
theorem C9_eh_dia_util_fds (d : Nat) (fer : Nat → Bool) :
    (eh_dia_util d fer = false ↔ (weekday d = 5 ∨ weekday d = 6 ∨ fer d = true))
    ∧ (eh_dia_util d (fun _ => false) = false ↔
        (weekday d = 5 ∨ weekday d = 6)) := by
  have h7 : weekday d < 7 := Nat.mod_lt _ (by omega)
  constructor
  · unfold eh_dia_util
    cases hf : fer d <;> simp [hf] <;> omega
  · unfold eh_dia_util
    simp
    omega

/-- C10: when `aplicar_local` is false the aggregator resolves an empty
locality context, so no MUNICIPAL or TJSP_COMARCA row ever contributes: its
output is exactly the fixed-scope (NACIONAL / ESTADUAL_SP / TJSP_GERAL)
holiday dates in the interval plus, when the court-general flag is on, the
generated recess days. -/
theorem C10_sem_local_apenas_fixos (store : Store) (inicio fim : Nat)
    (comarca municipio : Option (List Char)) (regras : RegrasCalendario) :
    resolve_context comarca municipio false = ⟨none, none⟩
    ∧ ∀ d, feriados_aplicaveis store inicio fim comarca municipio false regras d =
        ((feriados_periodo store inicio fim).any
            (fun f => fixed_scope_aplicavel f regras && f.data == d)
          || (regras.incluir_tjsp_geral && dias_recesso_cpc220 inicio fim d)) := by
  refine ⟨rfl, ?_⟩
  intro d
  have hf : (fun f => eh_aplicavel f ⟨none, none⟩ regras && f.data == d)
      = (fun f => fixed_scope_aplicavel f regras && f.data == d) := by
    funext f
    rw [eh_aplicavel_empty_ctx]
  show ((feriados_periodo store inicio fim).any
      (fun f => eh_aplicavel f (resolve_context comarca municipio false) regras
        && f.data == d)
    || (regras.incluir_tjsp_geral && dias_recesso_cpc220 inicio fim d)) = _
  rw [show resolve_context comarca municipio false = ⟨none, none⟩ from rfl, hf]

end SistemaPericias
